import Mathlib

/-!
Shallow embedding of `blrec`'s `RecordTaskManager`
(src/src/blrec/task/task_manager.py).

The manager owns an in-memory registry (a Python dict) from room id to
`RecordTask` job handles.  Job handles are external collaborators: their
methods (`setup`, `destroy`, `enable_monitor`, ...) are modelled as calls
into an environment `Env : JobCall → Option Err` that decides whether each
call succeeds or raises, and every manager operation returns, besides its
result and the updated registry, the ordered list of job calls it made.

Machine details kept faithful to the Python source:
  * `_get_task` raises `NotFoundError` both when the room is absent and
    when the task is present but not ready (only the message differs);
  * `destroy_all_tasks` returns early only when the dict itself is empty;
    when the dict is non-empty but no task is ready it reaches
    `asyncio.wait([])`, which raises `ValueError` in CPython;
  * the other bulk operations guard with `if coros:` and are true no-ops;
  * `add_task` is wrapped by a tenacity retry decorator
    (`retry_if_exception_type((asyncio.TimeoutError, aiohttp.ClientError,
    ApiRequestError))`, `wait_exponential(max=10)`, `stop_after_delay(60)`,
    `reraise=True`).
-/

namespace Blrec

/-- Connection-header settings bundle (user agent and cookie). -/
structure HeaderSettings where
  user_agent : String
  cookie : String
  deriving DecidableEq, Repr

/-- Output settings bundle. -/
structure OutputSettings where
  out_dir : String
  path_template : String
  filesize_limit : Nat
  duration_limit : Nat
  deriving DecidableEq, Repr

/-- Danmaku (chat-capture) settings bundle. -/
structure DanmakuSettings where
  danmu_uname : Bool
  record_gift_send : Bool
  record_free_gifts : Bool
  record_guard_buy : Bool
  record_super_chat : Bool
  save_raw_danmaku : Bool
  deriving DecidableEq, Repr

/-- Recorder settings bundle. -/
structure RecorderSettings where
  stream_format : String
  quality_number : Nat
  fmp4_stream_timeout : Nat
  read_timeout : Nat
  disconnection_timeout : Nat
  buffer_size : Nat
  save_cover : Bool
  cover_save_strategy : String
  deriving DecidableEq, Repr

/-- Postprocessing settings bundle. -/
structure PostprocessingSettings where
  remux_to_mp4 : Bool
  inject_extra_metadata : Bool
  delete_source : Bool
  deriving DecidableEq, Repr

/-- Per-task creation settings (`TaskSettings`). -/
structure TaskSettings where
  room_id : Nat
  header : HeaderSettings
  output : OutputSettings
  danmaku : DanmakuSettings
  recorder : RecorderSettings
  postprocessing : PostprocessingSettings
  enable_monitor : Bool
  enable_recorder : Bool
  deriving DecidableEq, Repr

/-- Errors the manager can observe or raise.  `NotFoundError` is the
manager's own registry error; `TimeoutError`, `ClientError` and
`ApiRequestError` are the three error kinds the retry decorator treats as
retryable; `JobError` stands for any other job-defined error; `ValueError`
is raised by `asyncio.wait` on an empty collection. -/
inductive Err where
  | NotFoundError (msg : String)
  | TimeoutError
  | ClientError
  | ApiRequestError
  | JobError (code : Nat)
  | ValueError (msg : String)
  deriving DecidableEq, Repr

/-- Whether an error is (any) `NotFoundError`. -/
def Err.isNotFound : Err → Bool
  | .NotFoundError _ => true
  | _ => false

/-- `retry_if_exception_type((asyncio.TimeoutError, aiohttp.ClientError,
ApiRequestError))`: the retryable error kinds. -/
def isRetryable : Err → Bool
  | .TimeoutError => true
  | .ClientError => true
  | .ApiRequestError => true
  | _ => false

/-- Calls the manager makes on a job handle (`RecordTask` methods). -/
inductive JobCall where
  | setup (room : Nat)
  | destroy (room : Nat)
  | enableMonitor (room : Nat)
  | disableMonitor (room : Nat)
  | enableRecorder (room : Nat)
  | disableRecorder (room : Nat) (force : Bool)
  | updateInfo (room : Nat)
  | updateSession (room : Nat)
  deriving DecidableEq, Repr

/-- The environment decides the outcome of each job call: `none` means the
call returns normally, `some e` means it raises `e`. -/
def Env : Type := JobCall → Option Err

/-- The manager-visible state of a `RecordTask` job handle: the mutable
configuration fields the manager reads and writes, the `ready` flag, and
the read-only projections the query facade passes through (modelled as
plain values carried by the handle). -/
structure RecordTask where
  room_id : Nat
  ready : Bool
  user_agent : String
  cookie : String
  out_dir : String
  path_template : String
  filesize_limit : Nat
  duration_limit : Nat
  danmu_uname : Bool
  record_gift_send : Bool
  record_free_gifts : Bool
  record_guard_buy : Bool
  record_super_chat : Bool
  save_raw_danmaku : Bool
  stream_format : String
  quality_number : Nat
  fmp4_stream_timeout : Nat
  read_timeout : Nat
  disconnection_timeout : Nat
  buffer_size : Nat
  save_cover : Bool
  cover_save_strategy : String
  remux_to_mp4 : Bool
  inject_extra_metadata : Bool
  delete_source : Bool
  metadata : Option Nat
  stream_profile : Nat
  video_file_details : List Nat
  danmaku_file_details : List Nat
  user_info : Nat
  room_info : Nat
  status : Nat
  can_cut_stream : Bool
  cut_stream : Bool
  deriving DecidableEq, Repr

/-- `RecordTask(room_id)`: a freshly constructed handle.  The job's
internals are external to this core; its initial manager-visible fields
are defaults and `ready` is false (setup has not run yet). -/
def RecordTask.new (room : Nat) : RecordTask where
  room_id := room
  ready := false
  user_agent := ""
  cookie := ""
  out_dir := ""
  path_template := ""
  filesize_limit := 0
  duration_limit := 0
  danmu_uname := false
  record_gift_send := false
  record_free_gifts := false
  record_guard_buy := false
  record_super_chat := false
  save_raw_danmaku := false
  stream_format := ""
  quality_number := 0
  fmp4_stream_timeout := 0
  read_timeout := 0
  disconnection_timeout := 0
  buffer_size := 0
  save_cover := false
  cover_save_strategy := ""
  remux_to_mp4 := false
  inject_extra_metadata := false
  delete_source := false
  metadata := none
  stream_profile := 0
  video_file_details := []
  danmaku_file_details := []
  user_info := 0
  room_info := 0
  status := 0
  can_cut_stream := false
  cut_stream := false

/-- Effective-config snapshot (`TaskParam`). -/
structure TaskParam where
  out_dir : String
  path_template : String
  filesize_limit : Nat
  duration_limit : Nat
  user_agent : String
  cookie : String
  danmu_uname : Bool
  record_gift_send : Bool
  record_free_gifts : Bool
  record_guard_buy : Bool
  record_super_chat : Bool
  save_cover : Bool
  cover_save_strategy : String
  save_raw_danmaku : Bool
  stream_format : String
  quality_number : Nat
  fmp4_stream_timeout : Nat
  read_timeout : Nat
  disconnection_timeout : Nat
  buffer_size : Nat
  remux_to_mp4 : Bool
  inject_extra_metadata : Bool
  delete_source : Bool
  deriving DecidableEq, Repr

/-- Status snapshot (`TaskData`). -/
structure TaskData where
  user_info : Nat
  room_info : Nat
  task_status : Nat
  deriving DecidableEq, Repr

/-! ### The registry (a Python dict, insertion ordered) -/

/-- Association-list lookup: first entry with the given key. -/
def lookupL (ts : List (Nat × RecordTask)) (k : Nat) : Option RecordTask :=
  match ts with
  | [] => none
  | p :: rest => if p.1 = k then some p.2 else lookupL rest k

/-- `dict[k] = v`: replace the first entry with key `k` in place, or append
a new entry at the end (Python dicts keep insertion order). -/
def upsertL (ts : List (Nat × RecordTask)) (k : Nat) (v : RecordTask) :
    List (Nat × RecordTask) :=
  match ts with
  | [] => [(k, v)]
  | p :: rest => if p.1 = k then (k, v) :: rest else p :: upsertL rest k v

/-- `del dict[k]`: remove the first entry with key `k`. -/
def eraseL (ts : List (Nat × RecordTask)) (k : Nat) :
    List (Nat × RecordTask) :=
  match ts with
  | [] => []
  | p :: rest => if p.1 = k then rest else p :: eraseL rest k

/-- In-place mutation of the task object stored under key `k` (Python
mutates the single object the dict points to). -/
def modifyL (ts : List (Nat × RecordTask)) (k : Nat)
    (f : RecordTask → RecordTask) : List (Nat × RecordTask) :=
  match ts with
  | [] => []
  | p :: rest => if p.1 = k then (p.1, f p.2) :: rest else p :: modifyL rest k f

/-- The manager state: `self._tasks`, a dict from room id to job handle. -/
structure Manager where
  tasks : List (Nat × RecordTask)
  deriving DecidableEq, Repr

/-- Registry well-formedness: dict keys are unique (always true of a
Python dict). -/
def Manager.wf (m : Manager) : Prop := (m.tasks.map Prod.fst).Nodup

instance (m : Manager) : Decidable m.wf := by
  unfold Manager.wf; infer_instance

def Manager.lookup (m : Manager) (room : Nat) : Option RecordTask :=
  lookupL m.tasks room

def Manager.upsert (m : Manager) (room : Nat) (t : RecordTask) : Manager :=
  ⟨upsertL m.tasks room t⟩

def Manager.eraseRoom (m : Manager) (room : Nat) : Manager :=
  ⟨eraseL m.tasks room⟩

def Manager.modifyTask (m : Manager) (room : Nat)
    (f : RecordTask → RecordTask) : Manager :=
  ⟨modifyL m.tasks room f⟩

/-- The ready entries of the registry, in registry order (the filtered
comprehensions `... for t in self._tasks.values() if t.ready`). -/
def Manager.readyEntries (m : Manager) : List (Nat × RecordTask) :=
  m.tasks.filter (fun p => p.2.ready)

namespace RecordTaskManager

/-- `has_task`: registry membership. -/
def has_task (m : Manager) (room_id : Nat) : Bool :=
  (m.lookup room_id).isSome

/-- Error raised by `_get_task` when the room is absent. -/
def noTaskMsg (room_id : Nat) : String :=
  "no task for the room " ++ toString room_id

/-- Error message raised by `_get_task` when the task is not ready. -/
def notReadyMsg (room_id : Nat) : String :=
  "the task " ++ toString room_id ++ " is not ready yet"

/-- `_get_task(room_id, check_ready)`: looks the room up in the registry;
raises `NotFoundError` when absent, and — with `check_ready` — also raises
`NotFoundError` (with a different message) when the task is not ready. -/
def _get_task (m : Manager) (room_id : Nat) (check_ready : Bool) :
    Except Err RecordTask :=
  match m.lookup room_id with
  | none => .error (.NotFoundError (noTaskMsg room_id))
  | some task =>
    if check_ready && !task.ready then
      .error (.NotFoundError (notReadyMsg room_id))
    else
      .ok task

/-- The result of an effectful manager operation: the outcome (or raised
error), the manager state afterwards, and the ordered job calls made. -/
def OpResult : Type := Except Err Unit × Manager × List JobCall

/-- Run one job call through the environment. -/
def callJob (env : Env) (c : JobCall) : Option Err := env c

/-- `remove_task(room_id)`: readiness-gated lookup, then
`disable_recorder(force=True)`, `disable_monitor()`, `destroy()`, then
`del self._tasks[room_id]`, in that order; a raise at any step propagates
and leaves the registry untouched. -/
def remove_task (env : Env) (m : Manager) (room_id : Nat) : OpResult :=
  match _get_task m room_id true with
  | .error e => (.error e, m, [])
  | .ok _ =>
    match callJob env (.disableRecorder room_id true) with
    | some e => (.error e, m, [.disableRecorder room_id true])
    | none =>
      match callJob env (.disableMonitor room_id) with
      | some e => (.error e, m, [.disableRecorder room_id true, .disableMonitor room_id])
      | none =>
        match callJob env (.destroy room_id) with
        | some e =>
          (.error e, m,
            [.disableRecorder room_id true, .disableMonitor room_id, .destroy room_id])
        | none =>
          (.ok (), m.eraseRoom room_id,
            [.disableRecorder room_id true, .disableMonitor room_id, .destroy room_id])

/-- `start_task(room_id)`: readiness-gated lookup, then `update_info()`,
`enable_monitor()`, `enable_recorder()` sequentially. -/
def start_task (env : Env) (m : Manager) (room_id : Nat) : OpResult :=
  match _get_task m room_id true with
  | .error e => (.error e, m, [])
  | .ok _ =>
    match callJob env (.updateInfo room_id) with
    | some e => (.error e, m, [.updateInfo room_id])
    | none =>
      match callJob env (.enableMonitor room_id) with
      | some e => (.error e, m, [.updateInfo room_id, .enableMonitor room_id])
      | none =>
        match callJob env (.enableRecorder room_id) with
        | some e =>
          (.error e, m,
            [.updateInfo room_id, .enableMonitor room_id, .enableRecorder room_id])
        | none =>
          (.ok (), m,
            [.updateInfo room_id, .enableMonitor room_id, .enableRecorder room_id])

/-- `stop_task(room_id, force)`: readiness-gated lookup, then
`disable_recorder(force)`, `disable_monitor()`. -/
def stop_task (env : Env) (m : Manager) (room_id : Nat) (force : Bool) : OpResult :=
  match _get_task m room_id true with
  | .error e => (.error e, m, [])
  | .ok _ =>
    match callJob env (.disableRecorder room_id force) with
    | some e => (.error e, m, [.disableRecorder room_id force])
    | none =>
      match callJob env (.disableMonitor room_id) with
      | some e => (.error e, m, [.disableRecorder room_id force, .disableMonitor room_id])
      | none => (.ok (), m, [.disableRecorder room_id force, .disableMonitor room_id])

/-- `enable_task_monitor(room_id)`. -/
def enable_task_monitor (env : Env) (m : Manager) (room_id : Nat) : OpResult :=
  match _get_task m room_id true with
  | .error e => (.error e, m, [])
  | .ok _ =>
    match callJob env (.enableMonitor room_id) with
    | some e => (.error e, m, [.enableMonitor room_id])
    | none => (.ok (), m, [.enableMonitor room_id])

/-- `disable_task_monitor(room_id)`. -/
def disable_task_monitor (env : Env) (m : Manager) (room_id : Nat) : OpResult :=
  match _get_task m room_id true with
  | .error e => (.error e, m, [])
  | .ok _ =>
    match callJob env (.disableMonitor room_id) with
    | some e => (.error e, m, [.disableMonitor room_id])
    | none => (.ok (), m, [.disableMonitor room_id])

/-- `enable_task_recorder(room_id)`. -/
def enable_task_recorder (env : Env) (m : Manager) (room_id : Nat) : OpResult :=
  match _get_task m room_id true with
  | .error e => (.error e, m, [])
  | .ok _ =>
    match callJob env (.enableRecorder room_id) with
    | some e => (.error e, m, [.enableRecorder room_id])
    | none => (.ok (), m, [.enableRecorder room_id])

/-- `disable_task_recorder(room_id, force)`. -/
def disable_task_recorder (env : Env) (m : Manager) (room_id : Nat) (force : Bool) :
    OpResult :=
  match _get_task m room_id true with
  | .error e => (.error e, m, [])
  | .ok _ =>
    match callJob env (.disableRecorder room_id force) with
    | some e => (.error e, m, [.disableRecorder room_id force])
    | none => (.ok (), m, [.disableRecorder room_id force])

/-- `update_task_info(room_id)`. -/
def update_task_info (env : Env) (m : Manager) (room_id : Nat) : OpResult :=
  match _get_task m room_id true with
  | .error e => (.error e, m, [])
  | .ok _ =>
    match callJob env (.updateInfo room_id) with
    | some e => (.error e, m, [.updateInfo room_id])
    | none => (.ok (), m, [.updateInfo room_id])

/-! ### Query facade (readiness-gated, read-only) -/

/-- `_make_task_param(task)`: field-by-field effective-config snapshot. -/
def _make_task_param (task : RecordTask) : TaskParam where
  out_dir := task.out_dir
  path_template := task.path_template
  filesize_limit := task.filesize_limit
  duration_limit := task.duration_limit
  user_agent := task.user_agent
  cookie := task.cookie
  danmu_uname := task.danmu_uname
  record_gift_send := task.record_gift_send
  record_free_gifts := task.record_free_gifts
  record_guard_buy := task.record_guard_buy
  record_super_chat := task.record_super_chat
  save_cover := task.save_cover
  cover_save_strategy := task.cover_save_strategy
  save_raw_danmaku := task.save_raw_danmaku
  stream_format := task.stream_format
  quality_number := task.quality_number
  fmp4_stream_timeout := task.fmp4_stream_timeout
  read_timeout := task.read_timeout
  disconnection_timeout := task.disconnection_timeout
  buffer_size := task.buffer_size
  remux_to_mp4 := task.remux_to_mp4
  inject_extra_metadata := task.inject_extra_metadata
  delete_source := task.delete_source

/-- `_make_task_data(task)`. -/
def _make_task_data (task : RecordTask) : TaskData where
  user_info := task.user_info
  room_info := task.room_info
  task_status := task.status

/-- `get_task_data(room_id)`. -/
def get_task_data (m : Manager) (room_id : Nat) : Except Err TaskData :=
  (_get_task m room_id true).map _make_task_data

/-- `get_task_param(room_id)`. -/
def get_task_param (m : Manager) (room_id : Nat) : Except Err TaskParam :=
  (_get_task m room_id true).map _make_task_param

/-- `get_task_metadata(room_id)`. -/
def get_task_metadata (m : Manager) (room_id : Nat) : Except Err (Option Nat) :=
  (_get_task m room_id true).map RecordTask.metadata

/-- `get_task_stream_profile(room_id)`. -/
def get_task_stream_profile (m : Manager) (room_id : Nat) : Except Err Nat :=
  (_get_task m room_id true).map RecordTask.stream_profile

/-- `get_task_video_file_details(room_id)`. -/
def get_task_video_file_details (m : Manager) (room_id : Nat) :
    Except Err (List Nat) :=
  (_get_task m room_id true).map RecordTask.video_file_details

/-- `get_task_danmaku_file_details(room_id)`. -/
def get_task_danmaku_file_details (m : Manager) (room_id : Nat) :
    Except Err (List Nat) :=
  (_get_task m room_id true).map RecordTask.danmaku_file_details

/-- `can_cut_stream(room_id)`: pass-through of the job query. -/
def can_cut_stream (m : Manager) (room_id : Nat) : Except Err Bool :=
  (_get_task m room_id true).map RecordTask.can_cut_stream

/-- `cut_stream(room_id)`: pass-through of the job call result. -/
def cut_stream (m : Manager) (room_id : Nat) : Except Err Bool :=
  (_get_task m room_id true).map RecordTask.cut_stream

/-- `get_all_task_data()`: snapshots of the ready tasks only, in registry
order. -/
def get_all_task_data (m : Manager) : List TaskData :=
  m.readyEntries.map (fun p => _make_task_data p.2)

/-! ### Settings appliers (non-readiness-gated lookup) -/

/-- `apply_task_header_settings(room_id, settings, update_session=True)`:
non-readiness-gated lookup; if the job's current user agent and cookie
both equal the incoming ones, return with no side effect; otherwise write
both fields and — only when `update_session` — call the job's
`update_session()`. -/
def apply_task_header_settings (env : Env) (m : Manager) (room_id : Nat)
    (settings : HeaderSettings) (update_session : Bool) : OpResult :=
  match _get_task m room_id false with
  | .error e => (.error e, m, [])
  | .ok task =>
    -- avoid unnecessary updates that will interrupt connections
    if task.user_agent = settings.user_agent ∧ task.cookie = settings.cookie then
      (.ok (), m, [])
    else
      let m2 := m.modifyTask room_id (fun t =>
        { t with user_agent := settings.user_agent, cookie := settings.cookie })
      if update_session then
        match callJob env (.updateSession room_id) with
        | some e => (.error e, m2, [.updateSession room_id])
        | none => (.ok (), m2, [.updateSession room_id])
      else
        (.ok (), m2, [])

/-- `apply_task_output_settings(room_id, settings)`: unconditional copy of
every output field onto the job. -/
def apply_task_output_settings (m : Manager) (room_id : Nat)
    (settings : OutputSettings) : Except Err Unit × Manager :=
  match _get_task m room_id false with
  | .error e => (.error e, m)
  | .ok _ =>
    (.ok (), m.modifyTask room_id (fun t =>
      { t with
        out_dir := settings.out_dir
        path_template := settings.path_template
        filesize_limit := settings.filesize_limit
        duration_limit := settings.duration_limit }))

/-- `apply_task_danmaku_settings(room_id, settings)`. -/
def apply_task_danmaku_settings (m : Manager) (room_id : Nat)
    (settings : DanmakuSettings) : Except Err Unit × Manager :=
  match _get_task m room_id false with
  | .error e => (.error e, m)
  | .ok _ =>
    (.ok (), m.modifyTask room_id (fun t =>
      { t with
        danmu_uname := settings.danmu_uname
        record_gift_send := settings.record_gift_send
        record_free_gifts := settings.record_free_gifts
        record_guard_buy := settings.record_guard_buy
        record_super_chat := settings.record_super_chat
        save_raw_danmaku := settings.save_raw_danmaku }))

/-- `apply_task_recorder_settings(room_id, settings)`. -/
def apply_task_recorder_settings (m : Manager) (room_id : Nat)
    (settings : RecorderSettings) : Except Err Unit × Manager :=
  match _get_task m room_id false with
  | .error e => (.error e, m)
  | .ok _ =>
    (.ok (), m.modifyTask room_id (fun t =>
      { t with
        stream_format := settings.stream_format
        quality_number := settings.quality_number
        fmp4_stream_timeout := settings.fmp4_stream_timeout
        read_timeout := settings.read_timeout
        disconnection_timeout := settings.disconnection_timeout
        buffer_size := settings.buffer_size
        save_cover := settings.save_cover
        cover_save_strategy := settings.cover_save_strategy }))

/-- `apply_task_postprocessing_settings(room_id, settings)`. -/
def apply_task_postprocessing_settings (m : Manager) (room_id : Nat)
    (settings : PostprocessingSettings) : Except Err Unit × Manager :=
  match _get_task m room_id false with
  | .error e => (.error e, m)
  | .ok _ =>
    (.ok (), m.modifyTask room_id (fun t =>
      { t with
        remux_to_mp4 := settings.remux_to_mp4
        inject_extra_metadata := settings.inject_extra_metadata
        delete_source := settings.delete_source }))

/-! ### Bulk operations

Bulk fan-outs go through `asyncio.wait`, which joins on completion
without inspecting per-job results, so an individual job call's failure
is not surfaced; the concurrent fan-out is modelled as execution in
registry-iteration order.  `asyncio.wait` raises `ValueError` when handed
an empty collection; every bulk operation except `destroy_all_tasks`
guards against that with `if coros:`. -/

/-- Message of the `ValueError` CPython's `asyncio.wait` raises on an
empty collection. -/
def emptyWaitMsg : String := "Set of coroutines/Futures is empty."

/-- `destroy_all_tasks()`: return early when the dict itself is empty;
otherwise fan out `destroy()` over the ready tasks and unconditionally
clear the registry.  The `if coros:` guard is missing here: with a
non-empty dict in which no task is ready, `asyncio.wait([])` raises. -/
def destroy_all_tasks (m : Manager) : OpResult :=
  if m.tasks.isEmpty then
    (.ok (), m, [])
  else
    let coros := m.readyEntries.map (fun p => JobCall.destroy p.1)
    if coros.isEmpty then
      (.error (.ValueError emptyWaitMsg), m, [])
    else
      (.ok (), ⟨[]⟩, coros)

/-- `remove_all_tasks()`: fan out `remove_task` over the rooms that are
ready at iteration time; per-room failures are not surfaced. -/
def remove_all_tasks (env : Env) (m : Manager) : OpResult :=
  let rooms := m.readyEntries.map Prod.fst
  if rooms.isEmpty then
    (.ok (), m, [])
  else
    let step := fun (acc : Manager × List JobCall) room =>
      let r := remove_task env acc.1 room
      (r.2.1, acc.2 ++ r.2.2)
    let fin := rooms.foldl step (m, [])
    (.ok (), fin.1, fin.2)

/-- `enable_all_task_monitors()`. -/
def enable_all_task_monitors (m : Manager) : OpResult :=
  let coros := m.readyEntries.map (fun p => JobCall.enableMonitor p.1)
  if coros.isEmpty then (.ok (), m, []) else (.ok (), m, coros)

/-- `disable_all_task_monitors()`. -/
def disable_all_task_monitors (m : Manager) : OpResult :=
  let coros := m.readyEntries.map (fun p => JobCall.disableMonitor p.1)
  if coros.isEmpty then (.ok (), m, []) else (.ok (), m, coros)

/-- `enable_all_task_recorders()`. -/
def enable_all_task_recorders (m : Manager) : OpResult :=
  let coros := m.readyEntries.map (fun p => JobCall.enableRecorder p.1)
  if coros.isEmpty then (.ok (), m, []) else (.ok (), m, coros)

/-- `disable_all_task_recorders(force)`. -/
def disable_all_task_recorders (m : Manager) (force : Bool) : OpResult :=
  let coros := m.readyEntries.map (fun p => JobCall.disableRecorder p.1 force)
  if coros.isEmpty then (.ok (), m, []) else (.ok (), m, coros)

/-- `update_all_task_infos()`. -/
def update_all_task_infos (m : Manager) : OpResult :=
  let coros := m.readyEntries.map (fun p => JobCall.updateInfo p.1)
  if coros.isEmpty then (.ok (), m, []) else (.ok (), m, coros)

/-- `start_all_tasks()`: `update_all_task_infos`, then
`enable_all_task_monitors`, then `enable_all_task_recorders`, each step
joining before the next begins. -/
def start_all_tasks (m : Manager) : OpResult :=
  let r1 := update_all_task_infos m
  let r2 := enable_all_task_monitors r1.2.1
  let r3 := enable_all_task_recorders r2.2.1
  (.ok (), r3.2.1, r1.2.2 ++ r2.2.2 ++ r3.2.2)

/-- `stop_all_tasks(force)`: `disable_all_task_recorders(force)` then
`disable_all_task_monitors`. -/
def stop_all_tasks (m : Manager) (force : Bool) : OpResult :=
  let r1 := disable_all_task_recorders m force
  let r2 := disable_all_task_monitors r1.2.1
  (.ok (), r2.2.1, r1.2.2 ++ r2.2.2)

/-! ### Task creation (`add_task`) and batch loading -/

/-- One execution of the `add_task` body: build a fresh `RecordTask`,
register it immediately, then — inside the `try` block — apply the header
settings without a session refresh, run `setup()`, apply the output,
danmaku, recorder and postprocessing settings, and conditionally enable
the monitor and the recorder.  If any step raises, the room's entry is
deleted from the registry and the error re-raised.  The `apply_task_*`
calls go through the settings manager, which delegates to the appliers of
this manager (the settings manager itself is an external collaborator). -/
def add_task_attempt (env : Env) (s : TaskSettings) (m : Manager) : OpResult :=
  let m1 := m.upsert s.room_id (RecordTask.new s.room_id)
  let r1 := apply_task_header_settings env m1 s.room_id s.header false
  match r1.1 with
  | .error e => (.error e, (r1.2.1).eraseRoom s.room_id, r1.2.2)
  | .ok _ =>
    let m2 := r1.2.1
    match callJob env (.setup s.room_id) with
    | some e => (.error e, m2.eraseRoom s.room_id, r1.2.2 ++ [.setup s.room_id])
    | none =>
      -- Modelled from the spec: the job transitions not-ready → ready upon
      -- successful setup; RecordTask internals are external to this core.
      let m3 := m2.modifyTask s.room_id (fun t => { t with ready := true })
      let tr0 := r1.2.2 ++ [.setup s.room_id]
      match apply_task_output_settings m3 s.room_id s.output with
      | (.error e, m4) => (.error e, m4.eraseRoom s.room_id, tr0)
      | (.ok _, m4) =>
        match apply_task_danmaku_settings m4 s.room_id s.danmaku with
        | (.error e, m5) => (.error e, m5.eraseRoom s.room_id, tr0)
        | (.ok _, m5) =>
          match apply_task_recorder_settings m5 s.room_id s.recorder with
          | (.error e, m6) => (.error e, m6.eraseRoom s.room_id, tr0)
          | (.ok _, m6) =>
            match apply_task_postprocessing_settings m6 s.room_id s.postprocessing with
            | (.error e, m7) => (.error e, m7.eraseRoom s.room_id, tr0)
            | (.ok _, m7) =>
              let recStep := fun (tr : List JobCall) =>
                if s.enable_recorder then
                  match callJob env (.enableRecorder s.room_id) with
                  | some e =>
                    ((.error e : Except Err Unit), m7.eraseRoom s.room_id,
                      tr ++ [JobCall.enableRecorder s.room_id])
                  | none => (.ok (), m7, tr ++ [JobCall.enableRecorder s.room_id])
                else (.ok (), m7, tr)
              if s.enable_monitor then
                match callJob env (.enableMonitor s.room_id) with
                | some e =>
                  (.error e, m7.eraseRoom s.room_id,
                    tr0 ++ [JobCall.enableMonitor s.room_id])
                | none => recStep (tr0 ++ [JobCall.enableMonitor s.room_id])
              else recStep tr0

/-- tenacity `wait_exponential(multiplier=1, exp_base=2, min=0, max=10)`:
the wait after the n-th failed attempt is `min (2 ^ n) 10`. -/
def retryWait (attempt : Nat) : Nat := min (2 ^ attempt) 10

/-- tenacity `stop_after_delay(60)`: stop once the elapsed time since the
first attempt reaches 60 time-units. -/
def stopDelay : Nat := 60

/-- The tenacity retry loop wrapped around `add_task` (`reraise=True`,
`retry=retry_if_exception_type((asyncio.TimeoutError, aiohttp.ClientError,
ApiRequestError))`, `wait=wait_exponential(max=10)`,
`stop=stop_after_delay(60)`): run an attempt; on success return; on a
non-retryable error re-raise it at once; on a retryable error re-raise it
unmodified when the elapsed-time budget is spent, otherwise wait
`retryWait attempt` and retry.  `envs n` is the environment seen by the
n-th attempt (attempts are numbered from 1 and modelled as instantaneous,
so elapsed time is the sum of the waits).  `fuel` only bounds the
recursion; `add_task` supplies more than the budget can consume. -/
def add_task_loop (envs : Nat → Env) (s : TaskSettings) :
    Nat → Nat → Nat → Manager → OpResult
  | fuel, attempt, elapsed, m =>
    let r := add_task_attempt (envs attempt) s m
    match r.1, fuel with
    | .ok _, _ => r
    | .error e, 0 => (.error e, r.2.1, r.2.2)
    | .error e, fuel' + 1 =>
      if isRetryable e = false then (.error e, r.2.1, r.2.2)
      else if stopDelay ≤ elapsed then (.error e, r.2.1, r.2.2)
      else
        let r2 := add_task_loop envs s fuel' (attempt + 1)
          (elapsed + retryWait attempt) r.2.1
        (r2.1, r2.2.1, r.2.2 ++ r2.2.2)

/-- `add_task(settings)` as decorated: the retry loop started at attempt 1
with no elapsed time. -/
def add_task (envs : Nat → Env) (s : TaskSettings) (m : Manager) : OpResult :=
  add_task_loop envs s 64 1 0 m

/-- The loop of `load_all_tasks` over the remaining settings entries
(`i` is the index of the next entry): `add_task` each entry; an entry's
error is forwarded to `submit_exception` — the external error-reporting
sink, modelled as the returned list of reported errors — and does not
abort the loop. -/
def load_all_go (envs : Nat → Nat → Env) (i : Nat) :
    List TaskSettings → Manager → Manager × List Err × List JobCall
  | [], m => (m, [], [])
  | s :: rest, m =>
    let r := add_task (envs i) s m
    let tail := load_all_go envs (i + 1) rest r.2.1
    match r.1 with
    | .ok _ => (tail.1, tail.2.1, r.2.2 ++ tail.2.2)
    | .error e => (tail.1, e :: tail.2.1, r.2.2 ++ tail.2.2)

/-- `load_all_tasks()` over a given settings list: one `add_task` per
entry, in list order; never raises.  `envs i` supplies the i-th entry's
per-attempt environments. -/
def load_all_tasks (envs : Nat → Nat → Env) (settings_list : List TaskSettings)
    (m : Manager) : Manager × List Err × List JobCall :=
  load_all_go envs 0 settings_list m

/-- Whether a job call is a `setup` call. -/
def isSetupCall : JobCall → Bool
  | .setup _ => true
  | _ => false

/-- The attempt number on which the retry loop of `add_task` gives up,
mirroring the arithmetic of `add_task_loop` (used to compute the retry
schedule of the tenacity decorator in closed form). -/
def finalAttempt : Nat → Nat → Nat → Nat
  | 0, attempt, _ => attempt
  | fuel + 1, attempt, elapsed =>
    if stopDelay ≤ elapsed then attempt
    else finalAttempt fuel (attempt + 1) (elapsed + retryWait attempt)

/-- The number of attempts the retry loop of `add_task` makes when every
attempt fails with a retryable error, mirroring `add_task_loop`. -/
def attemptCount : Nat → Nat → Nat → Nat
  | 0, _, _ => 1
  | fuel + 1, attempt, elapsed =>
    if stopDelay ≤ elapsed then 1
    else 1 + attemptCount fuel (attempt + 1) (elapsed + retryWait attempt)

end RecordTaskManager

/-! ### Concrete sample data (used by witnesses) -/

/-- A concrete settings bundle for room 7. -/
def sampleSettings : TaskSettings where
  room_id := 7
  header := { user_agent := "ua", cookie := "ck" }
  output :=
    { out_dir := "d", path_template := "p", filesize_limit := 1, duration_limit := 2 }
  danmaku :=
    { danmu_uname := true, record_gift_send := false, record_free_gifts := true,
      record_guard_buy := false, record_super_chat := true, save_raw_danmaku := false }
  recorder :=
    { stream_format := "flv", quality_number := 3, fmp4_stream_timeout := 4,
      read_timeout := 5, disconnection_timeout := 6, buffer_size := 8,
      save_cover := true, cover_save_strategy := "s" }
  postprocessing :=
    { remux_to_mp4 := true, inject_extra_metadata := false, delete_source := true }
  enable_monitor := true
  enable_recorder := false

/-- Like `sampleSettings` but for room 8 and with both flags off. -/
def sampleSettings8 : TaskSettings :=
  { sampleSettings with room_id := 8, enable_monitor := false }

/-- Like `sampleSettings` but for room 9. -/
def sampleSettings9 : TaskSettings :=
  { sampleSettings with room_id := 9 }

/-- The empty registry. -/
def mEmpty : Manager := ⟨[]⟩

/-- A not-ready handle for room 7. -/
def taskNotReady : RecordTask := RecordTask.new 7

/-- A ready handle for room 7. -/
def taskReady : RecordTask := { RecordTask.new 7 with ready := true }

/-- A registry holding only a not-ready job for room 7. -/
def mNotReady : Manager := ⟨[(7, taskNotReady)]⟩

/-- A registry holding only a ready job for room 7. -/
def mReady : Manager := ⟨[(7, taskReady)]⟩

/-- An environment in which every job call succeeds. -/
def okEnvW : Env := fun _ => none

/-- An environment in which `setup` fails with a non-retryable job error
and every other call succeeds. -/
def failEnvW : Env := fun c =>
  match c with
  | .setup _ => some (.JobError 0)
  | _ => none

/-- An environment in which `setup` always times out. -/
def timeoutEnvW : Env := fun c =>
  match c with
  | .setup _ => some .TimeoutError
  | _ => none

/-- Per-entry environments for a batch load in which only the second
entry's creation fails. -/
def batchEnvs : Nat → Nat → Env := fun i _ =>
  if i = 1 then failEnvW else okEnvW

/-! ### Dict lemmas -/

theorem lookupL_upsert_self (ts : List (Nat × RecordTask)) (k : Nat) (v : RecordTask) :
    lookupL (upsertL ts k v) k = some v := by
  induction ts with
  | nil => simp [upsertL, lookupL]
  | cons p rest ih =>
    by_cases h : p.1 = k
    · simp [upsertL, lookupL, h]
    · simp [upsertL, lookupL, h, ih]

theorem lookupL_upsert_ne (ts : List (Nat × RecordTask)) (k k' : Nat) (v : RecordTask)
    (h : k' ≠ k) : lookupL (upsertL ts k v) k' = lookupL ts k' := by
  induction ts with
  | nil => simp [upsertL, lookupL, Ne.symm h]
  | cons p rest ih =>
    by_cases hp : p.1 = k
    · simp [upsertL, lookupL, hp, Ne.symm h]
    · simp only [upsertL, if_neg hp, lookupL]
      by_cases hp' : p.1 = k'
      · simp [hp']
      · simp [hp', ih]

theorem lookupL_modify_self (ts : List (Nat × RecordTask)) (k : Nat)
    (f : RecordTask → RecordTask) :
    lookupL (modifyL ts k f) k = (lookupL ts k).map f := by
  induction ts with
  | nil => simp [modifyL, lookupL]
  | cons p rest ih =>
    by_cases h : p.1 = k
    · simp [modifyL, lookupL, h]
    · simp [modifyL, lookupL, h, ih]

theorem lookupL_modify_ne (ts : List (Nat × RecordTask)) (k k' : Nat)
    (f : RecordTask → RecordTask) (h : k' ≠ k) :
    lookupL (modifyL ts k f) k' = lookupL ts k' := by
  induction ts with
  | nil => simp [modifyL]
  | cons p rest ih =>
    by_cases hp : p.1 = k
    · simp [modifyL, lookupL, hp, Ne.symm h]
    · simp only [modifyL, if_neg hp, lookupL]
      by_cases hp' : p.1 = k'
      · simp [hp']
      · simp [hp', ih]

theorem lookupL_erase_ne (ts : List (Nat × RecordTask)) (k k' : Nat) (h : k' ≠ k) :
    lookupL (eraseL ts k) k' = lookupL ts k' := by
  induction ts with
  | nil => simp [eraseL]
  | cons p rest ih =>
    by_cases hp : p.1 = k
    · simp [eraseL, lookupL, hp, Ne.symm h]
    · simp only [eraseL, if_neg hp, lookupL]
      by_cases hp' : p.1 = k'
      · simp [hp']
      · simp [hp', ih]

theorem lookupL_eq_none_of_not_mem (ts : List (Nat × RecordTask)) (k : Nat)
    (h : k ∉ ts.map Prod.fst) : lookupL ts k = none := by
  induction ts with
  | nil => simp [lookupL]
  | cons p rest ih =>
    simp only [List.map_cons, List.mem_cons, not_or] at h
    simp only [lookupL, if_neg (Ne.symm h.1)]
    exact ih h.2

theorem lookupL_erase_self (ts : List (Nat × RecordTask)) (k : Nat)
    (h : (ts.map Prod.fst).Nodup) : lookupL (eraseL ts k) k = none := by
  induction ts with
  | nil => simp [eraseL, lookupL]
  | cons p rest ih =>
    simp only [List.map_cons, List.nodup_cons] at h
    by_cases hp : p.1 = k
    · simp only [eraseL, if_pos hp]
      apply lookupL_eq_none_of_not_mem
      rw [← hp]
      exact h.1
    · simp only [eraseL, if_neg hp, lookupL, if_neg hp]
      exact ih h.2

theorem eraseL_upsert (ts : List (Nat × RecordTask)) (k : Nat) (v : RecordTask) :
    eraseL (upsertL ts k v) k = eraseL ts k := by
  induction ts with
  | nil => simp [upsertL, eraseL]
  | cons p rest ih =>
    by_cases hp : p.1 = k
    · simp [upsertL, eraseL, hp]
    · simp [upsertL, eraseL, hp, ih]

theorem eraseL_modify (ts : List (Nat × RecordTask)) (k : Nat)
    (f : RecordTask → RecordTask) :
    eraseL (modifyL ts k f) k = eraseL ts k := by
  induction ts with
  | nil => simp [modifyL, eraseL]
  | cons p rest ih =>
    by_cases hp : p.1 = k
    · simp [modifyL, eraseL, hp]
    · simp [modifyL, eraseL, hp, ih]

theorem keys_modifyL (ts : List (Nat × RecordTask)) (k : Nat)
    (f : RecordTask → RecordTask) :
    (modifyL ts k f).map Prod.fst = ts.map Prod.fst := by
  induction ts with
  | nil => simp [modifyL]
  | cons p rest ih =>
    by_cases hp : p.1 = k
    · simp [modifyL, hp]
    · simp [modifyL, hp, ih]

theorem sublist_eraseL (ts : List (Nat × RecordTask)) (k : Nat) :
    (eraseL ts k).Sublist ts := by
  induction ts with
  | nil => simp [eraseL]
  | cons p rest ih =>
    by_cases hp : p.1 = k
    · simp only [eraseL, if_pos hp]
      exact List.sublist_cons_self p rest
    · simp only [eraseL, if_neg hp]
      exact ih.cons₂ p

theorem nodup_eraseL (ts : List (Nat × RecordTask)) (k : Nat)
    (h : (ts.map Prod.fst).Nodup) : ((eraseL ts k).map Prod.fst).Nodup :=
  ((sublist_eraseL ts k).map Prod.fst).nodup h

theorem mem_keys_upsertL (ts : List (Nat × RecordTask)) (k k' : Nat) (v : RecordTask)
    (h : k' ∈ (upsertL ts k v).map Prod.fst) : k' ∈ ts.map Prod.fst ∨ k' = k := by
  induction ts with
  | nil =>
    simp only [upsertL, List.map_cons, List.map_nil, List.mem_singleton] at h
    exact Or.inr h
  | cons p rest ih =>
    by_cases hp : p.1 = k
    · simp only [upsertL, if_pos hp, List.map_cons, List.mem_cons] at h
      rcases h with h | h
      · exact Or.inr h
      · exact Or.inl (List.mem_cons_of_mem _ h)
    · simp only [upsertL, if_neg hp, List.map_cons, List.mem_cons] at h
      rcases h with h | h
      · exact Or.inl (List.mem_cons.mpr (Or.inl h))
      · rcases ih h with h' | h'
        · exact Or.inl (List.mem_cons_of_mem _ h')
        · exact Or.inr h'

theorem nodup_upsertL (ts : List (Nat × RecordTask)) (k : Nat) (v : RecordTask)
    (h : (ts.map Prod.fst).Nodup) : ((upsertL ts k v).map Prod.fst).Nodup := by
  induction ts with
  | nil => simp [upsertL]
  | cons p rest ih =>
    simp only [List.map_cons, List.nodup_cons] at h
    by_cases hp : p.1 = k
    · simp only [upsertL, if_pos hp, List.map_cons, List.nodup_cons]
      exact ⟨by rw [← hp]; exact h.1, h.2⟩
    · simp only [upsertL, if_neg hp, List.map_cons, List.nodup_cons]
      refine ⟨?_, ih h.2⟩
      intro hmem
      rcases mem_keys_upsertL rest k p.1 v hmem with h' | h'
      · exact h.1 h'
      · exact hp h'

/-! ### Manager-level dict lemmas -/

theorem lookup_upsert_self (m : Manager) (k : Nat) (v : RecordTask) :
    (m.upsert k v).lookup k = some v :=
  lookupL_upsert_self m.tasks k v

theorem lookup_upsert_ne (m : Manager) (k k' : Nat) (v : RecordTask) (h : k' ≠ k) :
    (m.upsert k v).lookup k' = m.lookup k' :=
  lookupL_upsert_ne m.tasks k k' v h

theorem lookup_modify_self (m : Manager) (k : Nat) (f : RecordTask → RecordTask) :
    (m.modifyTask k f).lookup k = (m.lookup k).map f :=
  lookupL_modify_self m.tasks k f

theorem lookup_modify_ne (m : Manager) (k k' : Nat) (f : RecordTask → RecordTask)
    (h : k' ≠ k) : (m.modifyTask k f).lookup k' = m.lookup k' :=
  lookupL_modify_ne m.tasks k k' f h

theorem lookup_erase_self (m : Manager) (k : Nat) (h : m.wf) :
    (m.eraseRoom k).lookup k = none :=
  lookupL_erase_self m.tasks k h

theorem lookup_erase_ne (m : Manager) (k k' : Nat) (h : k' ≠ k) :
    (m.eraseRoom k).lookup k' = m.lookup k' :=
  lookupL_erase_ne m.tasks k k' h

theorem erase_upsert_mgr (m : Manager) (k : Nat) (v : RecordTask) :
    (m.upsert k v).eraseRoom k = m.eraseRoom k := by
  simp [Manager.upsert, Manager.eraseRoom, eraseL_upsert]

theorem erase_modify_mgr (m : Manager) (k : Nat) (f : RecordTask → RecordTask) :
    (m.modifyTask k f).eraseRoom k = m.eraseRoom k := by
  simp [Manager.modifyTask, Manager.eraseRoom, eraseL_modify]

theorem wf_upsert (m : Manager) (k : Nat) (v : RecordTask) (h : m.wf) :
    (m.upsert k v).wf :=
  nodup_upsertL m.tasks k v h

theorem wf_modify (m : Manager) (k : Nat) (f : RecordTask → RecordTask) (h : m.wf) :
    (m.modifyTask k f).wf := by
  unfold Manager.wf Manager.modifyTask
  rw [keys_modifyL]
  exact h

theorem wf_erase (m : Manager) (k : Nat) (h : m.wf) : (m.eraseRoom k).wf :=
  nodup_eraseL m.tasks k h

namespace RecordTaskManager

/-! ### `_get_task` lemmas -/

theorem _get_task_absent (m : Manager) (room : Nat) (cr : Bool)
    (h : m.lookup room = none) :
    _get_task m room cr = .error (.NotFoundError (noTaskMsg room)) := by
  simp [_get_task, h]

theorem _get_task_not_ready (m : Manager) (room : Nat) (t : RecordTask)
    (h : m.lookup room = some t) (hr : t.ready = false) :
    _get_task m room true = .error (.NotFoundError (notReadyMsg room)) := by
  simp [_get_task, h, hr]

theorem _get_task_present (m : Manager) (room : Nat) (t : RecordTask)
    (h : m.lookup room = some t) :
    _get_task m room false = .ok t := by
  simp [_get_task, h]

theorem _get_task_ready (m : Manager) (room : Nat) (t : RecordTask)
    (h : m.lookup room = some t) (hr : t.ready = true) :
    _get_task m room true = .ok t := by
  simp [_get_task, h, hr]

/-! ### Applier characterizations -/

theorem apply_header_noSession (env : Env) (m : Manager) (room : Nat)
    (st : HeaderSettings) (t : RecordTask) (h : m.lookup room = some t) :
    (apply_task_header_settings env m room st false).1 = .ok () ∧
    (apply_task_header_settings env m room st false).2.2 = [] ∧
    ((apply_task_header_settings env m room st false).2.1 = m ∨
     (apply_task_header_settings env m room st false).2.1 =
       m.modifyTask room (fun u =>
         { u with user_agent := st.user_agent, cookie := st.cookie })) := by
  have hg := _get_task_present m room t h
  by_cases hc : t.user_agent = st.user_agent ∧ t.cookie = st.cookie
  · simp [apply_task_header_settings, hg, if_pos hc]
  · simp [apply_task_header_settings, hg, if_neg hc]

theorem apply_output_present (m : Manager) (room : Nat) (st : OutputSettings)
    (t : RecordTask) (h : m.lookup room = some t) :
    apply_task_output_settings m room st =
      (.ok (), m.modifyTask room (fun u =>
        { u with
          out_dir := st.out_dir
          path_template := st.path_template
          filesize_limit := st.filesize_limit
          duration_limit := st.duration_limit })) := by
  simp [apply_task_output_settings, _get_task_present m room t h]

theorem apply_danmaku_present (m : Manager) (room : Nat) (st : DanmakuSettings)
    (t : RecordTask) (h : m.lookup room = some t) :
    apply_task_danmaku_settings m room st =
      (.ok (), m.modifyTask room (fun u =>
        { u with
          danmu_uname := st.danmu_uname
          record_gift_send := st.record_gift_send
          record_free_gifts := st.record_free_gifts
          record_guard_buy := st.record_guard_buy
          record_super_chat := st.record_super_chat
          save_raw_danmaku := st.save_raw_danmaku })) := by
  simp [apply_task_danmaku_settings, _get_task_present m room t h]

theorem apply_recorder_present (m : Manager) (room : Nat) (st : RecorderSettings)
    (t : RecordTask) (h : m.lookup room = some t) :
    apply_task_recorder_settings m room st =
      (.ok (), m.modifyTask room (fun u =>
        { u with
          stream_format := st.stream_format
          quality_number := st.quality_number
          fmp4_stream_timeout := st.fmp4_stream_timeout
          read_timeout := st.read_timeout
          disconnection_timeout := st.disconnection_timeout
          buffer_size := st.buffer_size
          save_cover := st.save_cover
          cover_save_strategy := st.cover_save_strategy })) := by
  simp [apply_task_recorder_settings, _get_task_present m room t h]

theorem apply_postprocessing_present (m : Manager) (room : Nat)
    (st : PostprocessingSettings) (t : RecordTask) (h : m.lookup room = some t) :
    apply_task_postprocessing_settings m room st =
      (.ok (), m.modifyTask room (fun u =>
        { u with
          remux_to_mp4 := st.remux_to_mp4
          inject_extra_metadata := st.inject_extra_metadata
          delete_source := st.delete_source })) := by
  simp [apply_task_postprocessing_settings, _get_task_present m room t h]

/-! ### `add_task_attempt` characterizations -/

theorem attempt_setup_fail (env : Env) (s : TaskSettings) (m : Manager) (e : Err)
    (h : env (JobCall.setup s.room_id) = some e) :
    add_task_attempt env s m =
      (.error e, m.eraseRoom s.room_id, [JobCall.setup s.room_id]) := by
  rcases (Classical.em ("" = s.header.user_agent ∧ "" = s.header.cookie)).imp
      eq_true eq_false with hcond | hcond <;>
    simp [add_task_attempt, apply_task_header_settings, _get_task, callJob,
      RecordTask.new, lookup_upsert_self, lookup_modify_self,
      erase_upsert_mgr, erase_modify_mgr, hcond, h]

theorem attempt_lookup_ne (env : Env) (s : TaskSettings) (m : Manager) (k : Nat)
    (hk : k ≠ s.room_id) :
    (add_task_attempt env s m).2.1.lookup k = m.lookup k := by
  rcases (Classical.em ("" = s.header.user_agent ∧ "" = s.header.cookie)).imp
      eq_true eq_false with hcond | hcond <;>
    cases hsetup : env (JobCall.setup s.room_id) <;>
    cases hmon : s.enable_monitor <;>
    cases hrec : s.enable_recorder <;>
    cases hem : env (JobCall.enableMonitor s.room_id) <;>
    cases her : env (JobCall.enableRecorder s.room_id) <;>
    simp [add_task_attempt, apply_task_header_settings,
      apply_task_output_settings, apply_task_danmaku_settings,
      apply_task_recorder_settings, apply_task_postprocessing_settings,
      _get_task, callJob, RecordTask.new, lookup_upsert_self, lookup_modify_self,
      lookup_upsert_ne _ _ _ _ hk, lookup_modify_ne _ _ _ _ hk,
      lookup_erase_ne _ _ _ hk, erase_upsert_mgr, erase_modify_mgr,
      hcond, hsetup, hmon, hrec, hem, her]

theorem attempt_wf (env : Env) (s : TaskSettings) (m : Manager) (hw : m.wf) :
    (add_task_attempt env s m).2.1.wf := by
  rcases (Classical.em ("" = s.header.user_agent ∧ "" = s.header.cookie)).imp
      eq_true eq_false with hcond | hcond <;>
    cases hsetup : env (JobCall.setup s.room_id) <;>
    cases hmon : s.enable_monitor <;>
    cases hrec : s.enable_recorder <;>
    cases hem : env (JobCall.enableMonitor s.room_id) <;>
    cases her : env (JobCall.enableRecorder s.room_id) <;>
    simp [add_task_attempt, apply_task_header_settings,
      apply_task_output_settings, apply_task_danmaku_settings,
      apply_task_recorder_settings, apply_task_postprocessing_settings,
      _get_task, callJob, RecordTask.new, lookup_upsert_self, lookup_modify_self,
      erase_upsert_mgr, erase_modify_mgr,
      hcond, hsetup, hmon, hrec, hem, her] <;>
    first
      | exact wf_erase _ _ hw
      | (repeat first | apply wf_modify | apply wf_upsert | exact hw)

set_option maxHeartbeats 1000000 in
theorem attempt_trace_shape (env : Env) (s : TaskSettings) (m : Manager)
    (c : JobCall) (hmem : c ∈ (add_task_attempt env s m).2.2) :
    c = JobCall.setup s.room_id ∨ c = JobCall.enableMonitor s.room_id ∨
      c = JobCall.enableRecorder s.room_id := by
  revert hmem
  rcases (Classical.em ("" = s.header.user_agent ∧ "" = s.header.cookie)).imp
      eq_true eq_false with hcond | hcond <;>
    cases hsetup : env (JobCall.setup s.room_id) <;>
    cases hmon : s.enable_monitor <;>
    cases hrec : s.enable_recorder <;>
    cases hem : env (JobCall.enableMonitor s.room_id) <;>
    cases her : env (JobCall.enableRecorder s.room_id) <;>
    simp [add_task_attempt, apply_task_header_settings,
      apply_task_output_settings, apply_task_danmaku_settings,
      apply_task_recorder_settings, apply_task_postprocessing_settings,
      _get_task, callJob, RecordTask.new, lookup_upsert_self, lookup_modify_self,
      erase_upsert_mgr, erase_modify_mgr,
      hcond, hsetup, hmon, hrec, hem, her] <;>
    intro hmem <;> tauto

set_option maxHeartbeats 1000000 in
theorem attempt_error_mgr (env : Env) (s : TaskSettings) (m : Manager) (e : Err)
    (h : (add_task_attempt env s m).1 = .error e) :
    (add_task_attempt env s m).2.1 = m.eraseRoom s.room_id := by
  revert h
  rcases (Classical.em ("" = s.header.user_agent ∧ "" = s.header.cookie)).imp
      eq_true eq_false with hcond | hcond <;>
    cases hsetup : env (JobCall.setup s.room_id) <;>
    cases hmon : s.enable_monitor <;>
    cases hrec : s.enable_recorder <;>
    cases hem : env (JobCall.enableMonitor s.room_id) <;>
    cases her : env (JobCall.enableRecorder s.room_id) <;>
    simp [add_task_attempt, apply_task_header_settings,
      apply_task_output_settings, apply_task_danmaku_settings,
      apply_task_recorder_settings, apply_task_postprocessing_settings,
      _get_task, callJob, RecordTask.new, lookup_upsert_self, lookup_modify_self,
      erase_upsert_mgr, erase_modify_mgr, hcond, hsetup, hmon, hrec, hem, her]

set_option maxHeartbeats 1000000 in
theorem attempt_ok_lookup (env : Env) (s : TaskSettings) (m : Manager)
    (h : (add_task_attempt env s m).1 = .ok ()) :
    ((add_task_attempt env s m).2.1.lookup s.room_id).isSome = true := by
  revert h
  rcases (Classical.em ("" = s.header.user_agent ∧ "" = s.header.cookie)).imp
      eq_true eq_false with hcond | hcond <;>
    cases hsetup : env (JobCall.setup s.room_id) <;>
    cases hmon : s.enable_monitor <;>
    cases hrec : s.enable_recorder <;>
    cases hem : env (JobCall.enableMonitor s.room_id) <;>
    cases her : env (JobCall.enableRecorder s.room_id) <;>
    simp [add_task_attempt, apply_task_header_settings,
      apply_task_output_settings, apply_task_danmaku_settings,
      apply_task_recorder_settings, apply_task_postprocessing_settings,
      _get_task, callJob, RecordTask.new, lookup_upsert_self, lookup_modify_self,
      erase_upsert_mgr, erase_modify_mgr, hcond, hsetup, hmon, hrec, hem, her]

set_option maxHeartbeats 1000000 in
theorem attempt_ok_filter (env : Env) (s : TaskSettings) (m : Manager)
    (h : (add_task_attempt env s m).1 = .ok ()) :
    (add_task_attempt env s m).2.2.filter isSetupCall = [JobCall.setup s.room_id] := by
  revert h
  rcases (Classical.em ("" = s.header.user_agent ∧ "" = s.header.cookie)).imp
      eq_true eq_false with hcond | hcond <;>
    cases hsetup : env (JobCall.setup s.room_id) <;>
    cases hmon : s.enable_monitor <;>
    cases hrec : s.enable_recorder <;>
    cases hem : env (JobCall.enableMonitor s.room_id) <;>
    cases her : env (JobCall.enableRecorder s.room_id) <;>
    simp [add_task_attempt, apply_task_header_settings,
      apply_task_output_settings, apply_task_danmaku_settings,
      apply_task_recorder_settings, apply_task_postprocessing_settings,
      _get_task, callJob, RecordTask.new, lookup_upsert_self, lookup_modify_self,
      erase_upsert_mgr, erase_modify_mgr, isSetupCall, hcond, hsetup, hmon,
      hrec, hem, her]

theorem attempt_all_ok (env : Env) (s : TaskSettings) (m : Manager)
    (henv : ∀ c, env c = none) :
    (add_task_attempt env s m).1 = .ok () := by
  rcases (Classical.em ("" = s.header.user_agent ∧ "" = s.header.cookie)).imp
      eq_true eq_false with hcond | hcond <;>
    cases hmon : s.enable_monitor <;>
    cases hrec : s.enable_recorder <;>
    simp [add_task_attempt, apply_task_header_settings,
      apply_task_output_settings, apply_task_danmaku_settings,
      apply_task_recorder_settings, apply_task_postprocessing_settings,
      _get_task, callJob, RecordTask.new, lookup_upsert_self, lookup_modify_self,
      henv, hcond, hmon, hrec]

/-! ### Retry-loop step equations -/

theorem loop_step_ok (envs : Nat → Env) (s : TaskSettings)
    (fuel attempt elapsed : Nat) (m : Manager)
    (hr : (add_task_attempt (envs attempt) s m).1 = .ok ()) :
    add_task_loop envs s fuel attempt elapsed m
      = add_task_attempt (envs attempt) s m := by
  cases fuel <;> simp [add_task_loop, hr]

theorem loop_step_final (envs : Nat → Env) (s : TaskSettings)
    (attempt elapsed : Nat) (m : Manager) (e : Err)
    (hr : (add_task_attempt (envs attempt) s m).1 = .error e) :
    add_task_loop envs s 0 attempt elapsed m
      = (.error e, (add_task_attempt (envs attempt) s m).2.1,
          (add_task_attempt (envs attempt) s m).2.2) := by
  simp [add_task_loop, hr]

theorem loop_step_noretry (envs : Nat → Env) (s : TaskSettings)
    (fuel attempt elapsed : Nat) (m : Manager) (e : Err)
    (hr : (add_task_attempt (envs attempt) s m).1 = .error e)
    (hnr : isRetryable e = false) :
    add_task_loop envs s (fuel + 1) attempt elapsed m
      = (.error e, (add_task_attempt (envs attempt) s m).2.1,
          (add_task_attempt (envs attempt) s m).2.2) := by
  simp [add_task_loop, hr, hnr]

theorem loop_step_stop (envs : Nat → Env) (s : TaskSettings)
    (fuel attempt elapsed : Nat) (m : Manager) (e : Err)
    (hr : (add_task_attempt (envs attempt) s m).1 = .error e)
    (hret : isRetryable e = true) (hstop : stopDelay ≤ elapsed) :
    add_task_loop envs s (fuel + 1) attempt elapsed m
      = (.error e, (add_task_attempt (envs attempt) s m).2.1,
          (add_task_attempt (envs attempt) s m).2.2) := by
  simp [add_task_loop, hr, hret, hstop]

theorem loop_step_retry (envs : Nat → Env) (s : TaskSettings)
    (fuel attempt elapsed : Nat) (m : Manager) (e : Err)
    (hr : (add_task_attempt (envs attempt) s m).1 = .error e)
    (hret : isRetryable e = true) (hstop : ¬ stopDelay ≤ elapsed) :
    add_task_loop envs s (fuel + 1) attempt elapsed m
      = ((add_task_loop envs s fuel (attempt + 1) (elapsed + retryWait attempt)
            (add_task_attempt (envs attempt) s m).2.1).1,
         (add_task_loop envs s fuel (attempt + 1) (elapsed + retryWait attempt)
            (add_task_attempt (envs attempt) s m).2.1).2.1,
         (add_task_attempt (envs attempt) s m).2.2 ++
           (add_task_loop envs s fuel (attempt + 1) (elapsed + retryWait attempt)
              (add_task_attempt (envs attempt) s m).2.1).2.2) := by
  simp [add_task_loop, hr, hret, hstop]

/-! ### Retry-loop characterizations -/

theorem loop_error_absent (envs : Nat → Env) (s : TaskSettings) :
    ∀ (fuel attempt elapsed : Nat) (m : Manager) (e : Err), m.wf →
    (add_task_loop envs s fuel attempt elapsed m).1 = .error e →
    has_task (add_task_loop envs s fuel attempt elapsed m).2.1 s.room_id = false := by
  intro fuel
  induction fuel with
  | zero =>
    intro attempt elapsed m e hw h
    cases hr : (add_task_attempt (envs attempt) s m).1 with
    | ok u =>
      cases u
      rw [loop_step_ok envs s 0 attempt elapsed m hr, hr] at h
      cases h
    | error e' =>
      rw [loop_step_final envs s attempt elapsed m e' hr]
      rw [attempt_error_mgr (envs attempt) s m e' hr]
      simp [has_task, lookup_erase_self m s.room_id hw]
  | succ fuel ih =>
    intro attempt elapsed m e hw h
    cases hr : (add_task_attempt (envs attempt) s m).1 with
    | ok u =>
      cases u
      rw [loop_step_ok envs s (fuel + 1) attempt elapsed m hr, hr] at h
      cases h
    | error e' =>
      have hmgr := attempt_error_mgr (envs attempt) s m e' hr
      cases hret : isRetryable e' with
      | false =>
        rw [loop_step_noretry envs s fuel attempt elapsed m e' hr hret]
        rw [hmgr]
        simp [has_task, lookup_erase_self m s.room_id hw]
      | true =>
        by_cases hstop : stopDelay ≤ elapsed
        · rw [loop_step_stop envs s fuel attempt elapsed m e' hr hret hstop]
          rw [hmgr]
          simp [has_task, lookup_erase_self m s.room_id hw]
        · rw [loop_step_retry envs s fuel attempt elapsed m e' hr hret hstop] at h ⊢
          have hw' : ((add_task_attempt (envs attempt) s m).2.1).wf := by
            rw [hmgr]; exact wf_erase m s.room_id hw
          exact ih (attempt + 1) (elapsed + retryWait attempt) _ e hw' h

theorem loop_lookup_ne (envs : Nat → Env) (s : TaskSettings) (k : Nat)
    (hk : k ≠ s.room_id) :
    ∀ (fuel attempt elapsed : Nat) (m : Manager),
    (add_task_loop envs s fuel attempt elapsed m).2.1.lookup k = m.lookup k := by
  intro fuel
  induction fuel with
  | zero =>
    intro attempt elapsed m
    cases hr : (add_task_attempt (envs attempt) s m).1 with
    | ok u =>
      cases u
      rw [loop_step_ok envs s 0 attempt elapsed m hr]
      exact attempt_lookup_ne (envs attempt) s m k hk
    | error e' =>
      rw [loop_step_final envs s attempt elapsed m e' hr]
      exact attempt_lookup_ne (envs attempt) s m k hk
  | succ fuel ih =>
    intro attempt elapsed m
    cases hr : (add_task_attempt (envs attempt) s m).1 with
    | ok u =>
      cases u
      rw [loop_step_ok envs s (fuel + 1) attempt elapsed m hr]
      exact attempt_lookup_ne (envs attempt) s m k hk
    | error e' =>
      cases hret : isRetryable e' with
      | false =>
        rw [loop_step_noretry envs s fuel attempt elapsed m e' hr hret]
        exact attempt_lookup_ne (envs attempt) s m k hk
      | true =>
        by_cases hstop : stopDelay ≤ elapsed
        · rw [loop_step_stop envs s fuel attempt elapsed m e' hr hret hstop]
          exact attempt_lookup_ne (envs attempt) s m k hk
        · rw [loop_step_retry envs s fuel attempt elapsed m e' hr hret hstop]
          rw [ih (attempt + 1) (elapsed + retryWait attempt) _]
          exact attempt_lookup_ne (envs attempt) s m k hk

theorem loop_wf (envs : Nat → Env) (s : TaskSettings) :
    ∀ (fuel attempt elapsed : Nat) (m : Manager), m.wf →
    (add_task_loop envs s fuel attempt elapsed m).2.1.wf := by
  intro fuel
  induction fuel with
  | zero =>
    intro attempt elapsed m hw
    cases hr : (add_task_attempt (envs attempt) s m).1 with
    | ok u =>
      cases u
      rw [loop_step_ok envs s 0 attempt elapsed m hr]
      exact attempt_wf (envs attempt) s m hw
    | error e' =>
      rw [loop_step_final envs s attempt elapsed m e' hr]
      exact attempt_wf (envs attempt) s m hw
  | succ fuel ih =>
    intro attempt elapsed m hw
    cases hr : (add_task_attempt (envs attempt) s m).1 with
    | ok u =>
      cases u
      rw [loop_step_ok envs s (fuel + 1) attempt elapsed m hr]
      exact attempt_wf (envs attempt) s m hw
    | error e' =>
      cases hret : isRetryable e' with
      | false =>
        rw [loop_step_noretry envs s fuel attempt elapsed m e' hr hret]
        exact attempt_wf (envs attempt) s m hw
      | true =>
        by_cases hstop : stopDelay ≤ elapsed
        · rw [loop_step_stop envs s fuel attempt elapsed m e' hr hret hstop]
          exact attempt_wf (envs attempt) s m hw
        · rw [loop_step_retry envs s fuel attempt elapsed m e' hr hret hstop]
          exact ih (attempt + 1) (elapsed + retryWait attempt) _
            (attempt_wf (envs attempt) s m hw)

theorem loop_ok_lookup (envs : Nat → Env) (s : TaskSettings) :
    ∀ (fuel attempt elapsed : Nat) (m : Manager),
    (add_task_loop envs s fuel attempt elapsed m).1 = .ok () →
    ((add_task_loop envs s fuel attempt elapsed m).2.1.lookup s.room_id).isSome
      = true := by
  intro fuel
  induction fuel with
  | zero =>
    intro attempt elapsed m h
    cases hr : (add_task_attempt (envs attempt) s m).1 with
    | ok u =>
      cases u
      rw [loop_step_ok envs s 0 attempt elapsed m hr]
      exact attempt_ok_lookup (envs attempt) s m hr
    | error e' =>
      rw [loop_step_final envs s attempt elapsed m e' hr] at h
      cases h
  | succ fuel ih =>
    intro attempt elapsed m h
    cases hr : (add_task_attempt (envs attempt) s m).1 with
    | ok u =>
      cases u
      rw [loop_step_ok envs s (fuel + 1) attempt elapsed m hr]
      exact attempt_ok_lookup (envs attempt) s m hr
    | error e' =>
      cases hret : isRetryable e' with
      | false =>
        rw [loop_step_noretry envs s fuel attempt elapsed m e' hr hret] at h
        cases h
      | true =>
        by_cases hstop : stopDelay ≤ elapsed
        · rw [loop_step_stop envs s fuel attempt elapsed m e' hr hret hstop] at h
          cases h
        · rw [loop_step_retry envs s fuel attempt elapsed m e' hr hret hstop] at h ⊢
          exact ih (attempt + 1) (elapsed + retryWait attempt) _ h

theorem loop_trace_shape (envs : Nat → Env) (s : TaskSettings) :
    ∀ (fuel attempt elapsed : Nat) (m : Manager) (c : JobCall),
    c ∈ (add_task_loop envs s fuel attempt elapsed m).2.2 →
    c = JobCall.setup s.room_id ∨ c = JobCall.enableMonitor s.room_id ∨
      c = JobCall.enableRecorder s.room_id := by
  intro fuel
  induction fuel with
  | zero =>
    intro attempt elapsed m c hc
    cases hr : (add_task_attempt (envs attempt) s m).1 with
    | ok u =>
      cases u
      rw [loop_step_ok envs s 0 attempt elapsed m hr] at hc
      exact attempt_trace_shape (envs attempt) s m c hc
    | error e' =>
      rw [loop_step_final envs s attempt elapsed m e' hr] at hc
      exact attempt_trace_shape (envs attempt) s m c hc
  | succ fuel ih =>
    intro attempt elapsed m c hc
    cases hr : (add_task_attempt (envs attempt) s m).1 with
    | ok u =>
      cases u
      rw [loop_step_ok envs s (fuel + 1) attempt elapsed m hr] at hc
      exact attempt_trace_shape (envs attempt) s m c hc
    | error e' =>
      cases hret : isRetryable e' with
      | false =>
        rw [loop_step_noretry envs s fuel attempt elapsed m e' hr hret] at hc
        exact attempt_trace_shape (envs attempt) s m c hc
      | true =>
        by_cases hstop : stopDelay ≤ elapsed
        · rw [loop_step_stop envs s fuel attempt elapsed m e' hr hret hstop] at hc
          exact attempt_trace_shape (envs attempt) s m c hc
        · rw [loop_step_retry envs s fuel attempt elapsed m e' hr hret hstop] at hc
          rcases List.mem_append.mp hc with hc | hc
          · exact attempt_trace_shape (envs attempt) s m c hc
          · exact ih (attempt + 1) (elapsed + retryWait attempt) _ c hc

theorem add_task_of_first_ok (envs : Nat → Env) (s : TaskSettings) (m : Manager)
    (h : (add_task_attempt (envs 1) s m).1 = .ok ()) :
    add_task envs s m = add_task_attempt (envs 1) s m := by
  rw [add_task]
  exact loop_step_ok envs s 64 1 0 m h

theorem add_task_setup_fail_nonretry (envs : Nat → Env) (s : TaskSettings)
    (m : Manager) (e : Err) (h : envs 1 (JobCall.setup s.room_id) = some e)
    (hnr : isRetryable e = false) :
    add_task envs s m =
      (.error e, m.eraseRoom s.room_id, [JobCall.setup s.room_id]) := by
  have ha := attempt_setup_fail (envs 1) s m e h
  rw [add_task]
  rw [show (64 : Nat) = 63 + 1 from rfl]
  rw [loop_step_noretry envs s 63 1 0 m e (by rw [ha]) hnr, ha]

theorem loop_all_retry_fail (envs : Nat → Env) (s : TaskSettings) (f : Nat → Err)
    (hf : ∀ n, envs n (JobCall.setup s.room_id) = some (f n))
    (hr : ∀ n, isRetryable (f n) = true) :
    ∀ (fuel attempt elapsed : Nat) (m : Manager),
    (add_task_loop envs s fuel attempt elapsed m).1
        = .error (f (finalAttempt fuel attempt elapsed)) ∧
    (add_task_loop envs s fuel attempt elapsed m).2.2
        = List.replicate (attemptCount fuel attempt elapsed)
            (JobCall.setup s.room_id) := by
  intro fuel
  induction fuel with
  | zero =>
    intro attempt elapsed m
    have ha := attempt_setup_fail (envs attempt) s m (f attempt) (hf attempt)
    rw [loop_step_final envs s attempt elapsed m (f attempt) (by rw [ha]), ha]
    simp [finalAttempt, attemptCount]
  | succ fuel ih =>
    intro attempt elapsed m
    have ha := attempt_setup_fail (envs attempt) s m (f attempt) (hf attempt)
    by_cases hstop : stopDelay ≤ elapsed
    · rw [loop_step_stop envs s fuel attempt elapsed m (f attempt) (by rw [ha])
        (hr attempt) hstop, ha]
      simp [finalAttempt, attemptCount, hstop]
    · rw [loop_step_retry envs s fuel attempt elapsed m (f attempt) (by rw [ha])
        (hr attempt) hstop]
      obtain ⟨ih1, ih2⟩ := ih (attempt + 1) (elapsed + retryWait attempt)
        ((add_task_attempt (envs attempt) s m).2.1)
      simp only [ha] at ih1 ih2
      refine ⟨?_, ?_⟩
      · simp only [ha, ih1, finalAttempt, if_neg hstop]
      · simp only [ha, ih2, attemptCount, if_neg hstop]
        rw [Nat.add_comm 1 _, List.replicate_succ]
        simp

/-! ### Claim theorems -/

/-- C1 counterexample: the claim says a present-but-not-ready room fails
with a NotReady error kind, distinct from NotFound.  In the code,
`_get_task` raises `NotFoundError` in both cases: on a registry holding a
not-ready job for room 7, a readiness-gated query fails with the very same
`NotFoundError` kind as on the empty registry — only the message differs. -/
theorem C1_counterexample_not_ready_is_not_found :
    get_task_metadata mNotReady 7 = .error (.NotFoundError (notReadyMsg 7)) ∧
    get_task_metadata mEmpty 7 = .error (.NotFoundError (noTaskMsg 7)) ∧
    (Err.NotFoundError (notReadyMsg 7)).isNotFound = true ∧
    (Err.NotFoundError (noTaskMsg 7)).isNotFound = true :=
  ⟨rfl, rfl, rfl, rfl⟩

/-- C1 (amended): for every readiness-gated operation — remove, start,
stop, enable/disable monitor or recorder, every per-room query, and
update_task_info — a room absent from the registry fails with
`NotFoundError` ("no task for the room ..."), and a room present but not
ready fails with the same `NotFoundError` kind, distinguished only by its
message ("... is not ready yet"); the code defines no separate NotReady
error kind. -/
theorem C1_amended_readiness_gating (m₁ m₂ : Manager) (room : Nat)
    (t : RecordTask) (env : Env) (force : Bool)
    (habs : m₁.lookup room = none)
    (hpres : m₂.lookup room = some t) (hnr : t.ready = false) :
    ((remove_task env m₁ room).1 = .error (.NotFoundError (noTaskMsg room)) ∧
     (start_task env m₁ room).1 = .error (.NotFoundError (noTaskMsg room)) ∧
     (stop_task env m₁ room force).1 = .error (.NotFoundError (noTaskMsg room)) ∧
     (enable_task_monitor env m₁ room).1 = .error (.NotFoundError (noTaskMsg room)) ∧
     (disable_task_monitor env m₁ room).1 = .error (.NotFoundError (noTaskMsg room)) ∧
     (enable_task_recorder env m₁ room).1 = .error (.NotFoundError (noTaskMsg room)) ∧
     (disable_task_recorder env m₁ room force).1
        = .error (.NotFoundError (noTaskMsg room)) ∧
     (update_task_info env m₁ room).1 = .error (.NotFoundError (noTaskMsg room)) ∧
     get_task_data m₁ room = .error (.NotFoundError (noTaskMsg room)) ∧
     get_task_param m₁ room = .error (.NotFoundError (noTaskMsg room)) ∧
     get_task_metadata m₁ room = .error (.NotFoundError (noTaskMsg room)) ∧
     get_task_stream_profile m₁ room = .error (.NotFoundError (noTaskMsg room)) ∧
     get_task_video_file_details m₁ room = .error (.NotFoundError (noTaskMsg room)) ∧
     get_task_danmaku_file_details m₁ room = .error (.NotFoundError (noTaskMsg room)) ∧
     can_cut_stream m₁ room = .error (.NotFoundError (noTaskMsg room)) ∧
     cut_stream m₁ room = .error (.NotFoundError (noTaskMsg room))) ∧
    ((remove_task env m₂ room).1 = .error (.NotFoundError (notReadyMsg room)) ∧
     (start_task env m₂ room).1 = .error (.NotFoundError (notReadyMsg room)) ∧
     (stop_task env m₂ room force).1 = .error (.NotFoundError (notReadyMsg room)) ∧
     (enable_task_monitor env m₂ room).1 = .error (.NotFoundError (notReadyMsg room)) ∧
     (disable_task_monitor env m₂ room).1
        = .error (.NotFoundError (notReadyMsg room)) ∧
     (enable_task_recorder env m₂ room).1
        = .error (.NotFoundError (notReadyMsg room)) ∧
     (disable_task_recorder env m₂ room force).1
        = .error (.NotFoundError (notReadyMsg room)) ∧
     (update_task_info env m₂ room).1 = .error (.NotFoundError (notReadyMsg room)) ∧
     get_task_data m₂ room = .error (.NotFoundError (notReadyMsg room)) ∧
     get_task_param m₂ room = .error (.NotFoundError (notReadyMsg room)) ∧
     get_task_metadata m₂ room = .error (.NotFoundError (notReadyMsg room)) ∧
     get_task_stream_profile m₂ room = .error (.NotFoundError (notReadyMsg room)) ∧
     get_task_video_file_details m₂ room
        = .error (.NotFoundError (notReadyMsg room)) ∧
     get_task_danmaku_file_details m₂ room
        = .error (.NotFoundError (notReadyMsg room)) ∧
     can_cut_stream m₂ room = .error (.NotFoundError (notReadyMsg room)) ∧
     cut_stream m₂ room = .error (.NotFoundError (notReadyMsg room))) := by
  have hga : _get_task m₁ room true = .error (.NotFoundError (noTaskMsg room)) :=
    _get_task_absent m₁ room true habs
  have hgb : _get_task m₂ room true = .error (.NotFoundError (notReadyMsg room)) :=
    _get_task_not_ready m₂ room t hpres hnr
  refine ⟨⟨?_, ?_, ?_, ?_, ?_, ?_, ?_, ?_, ?_, ?_, ?_, ?_, ?_, ?_, ?_, ?_⟩,
    ?_, ?_, ?_, ?_, ?_, ?_, ?_, ?_, ?_, ?_, ?_, ?_, ?_, ?_, ?_, ?_⟩ <;>
    simp [remove_task, start_task, stop_task, enable_task_monitor,
      disable_task_monitor, enable_task_recorder, disable_task_recorder,
      update_task_info, get_task_data, get_task_param, get_task_metadata,
      get_task_stream_profile, get_task_video_file_details,
      get_task_danmaku_file_details, can_cut_stream, cut_stream, Except.map,
      hga, hgb]

/-- C1 witness: the amended gating facts at concrete registries (room 7
absent from the empty registry; room 7 present but not ready). -/
theorem C1_amended_readiness_gating_witness :
    (remove_task okEnvW mEmpty 7).1 = .error (.NotFoundError (noTaskMsg 7)) ∧
    (remove_task okEnvW mNotReady 7).1 = .error (.NotFoundError (notReadyMsg 7)) ∧
    get_task_param mEmpty 7 = .error (.NotFoundError (noTaskMsg 7)) ∧
    get_task_param mNotReady 7 = .error (.NotFoundError (notReadyMsg 7)) := by
  have h := C1_amended_readiness_gating mEmpty mNotReady 7 taskNotReady okEnvW
    false rfl rfl rfl
  exact ⟨h.1.1, h.2.1, h.1.2.2.2.2.2.2.2.2.2.1, h.2.2.2.2.2.2.2.2.2.2.1⟩

/-- C3 counterexample: over a non-empty registry in which zero jobs are
ready, `destroy_all_tasks` does not return without error — it reaches
`asyncio.wait([])`, which raises `ValueError` (it does perform zero
job-level calls). -/
theorem C3_counterexample_destroy_all_raises :
    mNotReady.readyEntries = [] ∧
    destroy_all_tasks mNotReady
      = (.error (.ValueError emptyWaitMsg), mNotReady, []) := by
  exact ⟨rfl, rfl⟩

/-- C3 (amended): over a registry in which zero jobs are ready, every bulk
operation except `destroy_all_tasks` performs zero job-level calls and
returns without error; `destroy_all_tasks` does so only when the registry
itself is empty, and raises `ValueError` (still with zero job-level calls)
when the registry is non-empty with zero ready jobs. -/
theorem C3_amended_bulk_noop (m : Manager) (env : Env) (force : Bool)
    (h : m.readyEntries = []) :
    remove_all_tasks env m = (.ok (), m, []) ∧
    start_all_tasks m = (.ok (), m, []) ∧
    stop_all_tasks m force = (.ok (), m, []) ∧
    enable_all_task_monitors m = (.ok (), m, []) ∧
    disable_all_task_monitors m = (.ok (), m, []) ∧
    enable_all_task_recorders m = (.ok (), m, []) ∧
    disable_all_task_recorders m force = (.ok (), m, []) ∧
    update_all_task_infos m = (.ok (), m, []) ∧
    (m.tasks = [] → destroy_all_tasks m = (.ok (), m, [])) ∧
    (m.tasks ≠ [] →
      destroy_all_tasks m = (.error (.ValueError emptyWaitMsg), m, [])) := by
  refine ⟨?_, ?_, ?_, ?_, ?_, ?_, ?_, ?_, ?_, ?_⟩
  · simp [remove_all_tasks, h]
  · simp [start_all_tasks, update_all_task_infos, enable_all_task_monitors,
      enable_all_task_recorders, h]
  · simp [stop_all_tasks, disable_all_task_recorders,
      disable_all_task_monitors, h]
  · simp [enable_all_task_monitors, h]
  · simp [disable_all_task_monitors, h]
  · simp [enable_all_task_recorders, h]
  · simp [disable_all_task_recorders, h]
  · simp [update_all_task_infos, h]
  · intro h0; simp [destroy_all_tasks, h0]
  · intro h0; simp [destroy_all_tasks, h, h0]

/-- C3 witness: the amended bulk behavior at the concrete registry that
holds one not-ready job. -/
theorem C3_amended_bulk_noop_witness :
    enable_all_task_monitors mNotReady = (.ok (), mNotReady, []) ∧
    remove_all_tasks okEnvW mNotReady = (.ok (), mNotReady, []) ∧
    destroy_all_tasks mNotReady
      = (.error (.ValueError emptyWaitMsg), mNotReady, []) := by
  have h := C3_amended_bulk_noop mNotReady okEnvW false rfl
  exact ⟨h.2.2.2.1, h.1, h.2.2.2.2.2.2.2.2.2 (by simp [mNotReady])⟩

/-- C5: `apply_task_header_settings` on a job whose current user agent and
cookie equal those of the incoming bundle returns without side effects —
the registry is unchanged, and no job call (in particular no
`update_session`) is made — regardless of the `update_session` argument. -/
theorem C5_header_noop (env : Env) (m : Manager) (room : Nat)
    (st : HeaderSettings) (t : RecordTask) (us : Bool)
    (h : m.lookup room = some t)
    (hua : t.user_agent = st.user_agent) (hck : t.cookie = st.cookie) :
    apply_task_header_settings env m room st us = (.ok (), m, []) := by
  simp [apply_task_header_settings, _get_task_present m room t h, hua, hck]

/-- C5 witness: the no-op header update at a concrete registry. -/
theorem C5_header_noop_witness :
    apply_task_header_settings okEnvW mReady 7 ⟨"", ""⟩ true
      = (.ok (), mReady, []) :=
  C5_header_noop okEnvW mReady 7 ⟨"", ""⟩ taskReady true rfl rfl rfl

/-- C6: for a ready registered room, `remove_task` makes exactly the calls
recorder-disable(forced), monitor-disable, destroy — in that order — and
removes the registry entry only after all three succeed; whenever any step
raises, the registry is left untouched. -/
theorem C6_remove_order (env : Env) (m : Manager) (room : Nat) (t : RecordTask)
    (h : m.lookup room = some t) (hrdy : t.ready = true)
    (h1 : env (JobCall.disableRecorder room true) = none)
    (h2 : env (JobCall.disableMonitor room) = none)
    (h3 : env (JobCall.destroy room) = none) :
    remove_task env m room =
      (.ok (), m.eraseRoom room,
        [JobCall.disableRecorder room true, JobCall.disableMonitor room,
         JobCall.destroy room]) ∧
    (∀ env2 e, (remove_task env2 m room).1 = .error e →
      (remove_task env2 m room).2.1 = m) := by
  constructor
  · simp [remove_task, _get_task_ready m room t h hrdy, callJob, h1, h2, h3]
  · intro env2 e
    cases hg : _get_task m room true <;>
      cases hr1 : env2 (JobCall.disableRecorder room true) <;>
      cases hr2 : env2 (JobCall.disableMonitor room) <;>
      cases hr3 : env2 (JobCall.destroy room) <;>
      simp [remove_task, callJob, hg, hr1, hr2, hr3]

/-- C6 witness: removing the ready room 7 makes the three calls in order
and empties the registry. -/
theorem C6_remove_order_witness :
    remove_task okEnvW mReady 7 =
      (.ok (), mReady.eraseRoom 7,
        [JobCall.disableRecorder 7 true, JobCall.disableMonitor 7,
         JobCall.destroy 7]) :=
  (C6_remove_order okEnvW mReady 7 taskReady rfl rfl rfl rfl rfl).1

/-- C7: for a ready registered room, `start_task` makes exactly the calls
info-refresh, monitor-enable, recorder-enable, sequentially in that order,
and the registry is unchanged (for every environment, including failing
ones). -/
theorem C7_start_order (env : Env) (m : Manager) (room : Nat) (t : RecordTask)
    (h : m.lookup room = some t) (hrdy : t.ready = true)
    (h1 : env (JobCall.updateInfo room) = none)
    (h2 : env (JobCall.enableMonitor room) = none)
    (h3 : env (JobCall.enableRecorder room) = none) :
    start_task env m room =
      (.ok (), m,
        [JobCall.updateInfo room, JobCall.enableMonitor room,
         JobCall.enableRecorder room]) ∧
    (∀ env2, (start_task env2 m room).2.1 = m) := by
  constructor
  · simp [start_task, _get_task_ready m room t h hrdy, callJob, h1, h2, h3]
  · intro env2
    cases hg : _get_task m room true <;>
      cases hr1 : env2 (JobCall.updateInfo room) <;>
      cases hr2 : env2 (JobCall.enableMonitor room) <;>
      cases hr3 : env2 (JobCall.enableRecorder room) <;>
      simp [start_task, callJob, hg, hr1, hr2, hr3]

/-- C7 witness: starting the ready room 7 makes the three calls in order
and leaves the registry unchanged. -/
theorem C7_start_order_witness :
    start_task okEnvW mReady 7 =
      (.ok (), mReady,
        [JobCall.updateInfo 7, JobCall.enableMonitor 7,
         JobCall.enableRecorder 7]) :=
  (C7_start_order okEnvW mReady 7 taskReady rfl rfl rfl rfl rfl).1

/-- C10: every Settings Applier operation uses the non-readiness-gated
lookup: on an absent room each raises `NotFoundError`; on a present room —
even one whose `ready` flag is false — the four unconditional appliers
succeed, and the header applier can only fail with an error coming from
the job's own `update_session` call, never from the lookup; no NotReady
error kind exists. -/
theorem C10_appliers_not_gated (env : Env) (m₁ m₂ : Manager) (room : Nat)
    (t : RecordTask) (sth : HeaderSettings) (sto : OutputSettings)
    (std : DanmakuSettings) (str : RecorderSettings)
    (stp : PostprocessingSettings) (us : Bool)
    (habs : m₁.lookup room = none)
    (hpres : m₂.lookup room = some t) (hnr : t.ready = false) :
    (apply_task_header_settings env m₁ room sth us).1
        = .error (.NotFoundError (noTaskMsg room)) ∧
    (apply_task_output_settings m₁ room sto).1
        = .error (.NotFoundError (noTaskMsg room)) ∧
    (apply_task_danmaku_settings m₁ room std).1
        = .error (.NotFoundError (noTaskMsg room)) ∧
    (apply_task_recorder_settings m₁ room str).1
        = .error (.NotFoundError (noTaskMsg room)) ∧
    (apply_task_postprocessing_settings m₁ room stp).1
        = .error (.NotFoundError (noTaskMsg room)) ∧
    (apply_task_output_settings m₂ room sto).1 = .ok () ∧
    (apply_task_danmaku_settings m₂ room std).1 = .ok () ∧
    (apply_task_recorder_settings m₂ room str).1 = .ok () ∧
    (apply_task_postprocessing_settings m₂ room stp).1 = .ok () ∧
    (∀ e, (apply_task_header_settings env m₂ room sth us).1 = .error e →
      env (JobCall.updateSession room) = some e) := by
  have hga := _get_task_absent m₁ room false habs
  have hgp := _get_task_present m₂ room t hpres
  refine ⟨?_, ?_, ?_, ?_, ?_, ?_, ?_, ?_, ?_, ?_⟩
  · simp [apply_task_header_settings, hga]
  · simp [apply_task_output_settings, hga]
  · simp [apply_task_danmaku_settings, hga]
  · simp [apply_task_recorder_settings, hga]
  · simp [apply_task_postprocessing_settings, hga]
  · simp [apply_task_output_settings, hgp]
  · simp [apply_task_danmaku_settings, hgp]
  · simp [apply_task_recorder_settings, hgp]
  · simp [apply_task_postprocessing_settings, hgp]
  · intro e
    rcases (Classical.em (t.user_agent = sth.user_agent ∧ t.cookie = sth.cookie)).imp
        eq_true eq_false with hc | hc <;>
      cases hus : us <;>
      cases hsess : env (JobCall.updateSession room) <;>
      simp [apply_task_header_settings, hgp, callJob, hc, hus, hsess]

/-- C10 witness: the non-gated applier behavior at concrete registries
(room 7 absent, and room 7 present but not ready). -/
theorem C10_appliers_not_gated_witness :
    (apply_task_output_settings mEmpty 7 sampleSettings.output).1
        = .error (.NotFoundError (noTaskMsg 7)) ∧
    (apply_task_output_settings mNotReady 7 sampleSettings.output).1
        = .ok () ∧
    (apply_task_recorder_settings mNotReady 7 sampleSettings.recorder).1
        = .ok () := by
  have h := C10_appliers_not_gated okEnvW mEmpty mNotReady 7 taskNotReady
    sampleSettings.header sampleSettings.output sampleSettings.danmaku
    sampleSettings.recorder sampleSettings.postprocessing true rfl rfl rfl
  exact ⟨h.2.1, h.2.2.2.2.2.1, h.2.2.2.2.2.2.2.1⟩

/-- C2: whenever `add_task` (create, including its retry wrapper) raises,
the settings room is absent from the registry immediately afterwards —
the job registered at the start of the attempt has been deregistered. -/
theorem C2_create_failure_deregisters (envs : Nat → Env) (s : TaskSettings)
    (m : Manager) (e : Err) (hw : m.wf)
    (h : (add_task envs s m).1 = .error e) :
    has_task (add_task envs s m).2.1 s.room_id = false := by
  rw [add_task] at h ⊢
  exact loop_error_absent envs s 64 1 0 m e hw h

/-- C2 witness: a creation whose `setup()` fails leaves room 7 absent. -/
theorem C2_create_failure_deregisters_witness :
    (add_task (fun _ => failEnvW) sampleSettings mEmpty).1
      = .error (.JobError 0) ∧
    has_task (add_task (fun _ => failEnvW) sampleSettings mEmpty).2.1 7
      = false := by
  have he : (add_task (fun _ => failEnvW) sampleSettings mEmpty).1
      = .error (.JobError 0) := rfl
  exact ⟨he, C2_create_failure_deregisters (fun _ => failEnvW) sampleSettings
    mEmpty (.JobError 0) (by simp [Manager.wf, mEmpty]) he⟩

/-- C4: the retry policy around create retries exactly the timeout,
connection-layer and remote-API-request error kinds; its waits are
exponential (2, 4, 8, ...) capped at 10 time-units; a non-retryable error
propagates unmodified on its first occurrence with a single attempt made;
and under persistently retryable failures the loop stops once the
60-time-unit budget is spent — making exactly 9 attempts — and re-raises
the last attempt's error unmodified (not wrapped in a new error kind). -/
theorem C4_retry_policy (s : TaskSettings) (m : Manager)
    (envs1 : Nat → Env) (e : Err)
    (h1 : envs1 1 (JobCall.setup s.room_id) = some e)
    (h2 : isRetryable e = false)
    (envs2 : Nat → Env) (f : Nat → Err)
    (hf : ∀ n, envs2 n (JobCall.setup s.room_id) = some (f n))
    (hfr : ∀ n, isRetryable (f n) = true) :
    (∀ er, isRetryable er = true ↔
      (er = .TimeoutError ∨ er = .ClientError ∨ er = .ApiRequestError)) ∧
    (∀ n, retryWait n ≤ 10) ∧
    retryWait 1 = 2 ∧ retryWait 2 = 4 ∧ retryWait 3 = 8 ∧
    retryWait 4 = 10 ∧ retryWait 5 = 10 ∧
    add_task envs1 s m
      = (.error e, m.eraseRoom s.room_id, [JobCall.setup s.room_id]) ∧
    (add_task envs2 s m).1 = .error (f 9) ∧
    (add_task envs2 s m).2.2 = List.replicate 9 (JobCall.setup s.room_id) := by
  obtain ⟨hl1, hl2⟩ := loop_all_retry_fail envs2 s f hf hfr 64 1 0 m
  refine ⟨?_, ?_, by decide, by decide, by decide, by decide, by decide,
    ?_, ?_, ?_⟩
  · intro er; cases er <;> simp [isRetryable]
  · intro n; exact min_le_right _ _
  · exact add_task_setup_fail_nonretry envs1 s m e h1 h2
  · rw [add_task, hl1, show finalAttempt 64 1 0 = 9 from by decide]
  · rw [add_task, hl2, show attemptCount 64 1 0 = 9 from by decide]

/-- C4 witness: a non-retryable job error propagates after one attempt;
persistent timeouts are retried until the budget is spent (9 attempts)
and the timeout is re-raised unmodified. -/
theorem C4_retry_policy_witness :
    add_task (fun _ => failEnvW) sampleSettings mEmpty
      = (.error (.JobError 0), mEmpty.eraseRoom 7, [JobCall.setup 7]) ∧
    (add_task (fun _ => timeoutEnvW) sampleSettings mEmpty).1
      = .error .TimeoutError ∧
    (add_task (fun _ => timeoutEnvW) sampleSettings mEmpty).2.2
      = List.replicate 9 (JobCall.setup 7) := by
  have h := C4_retry_policy sampleSettings mEmpty (fun _ => failEnvW)
    (.JobError 0) rfl (by decide) (fun _ => timeoutEnvW)
    (fun _ => .TimeoutError) (fun n => rfl) (fun n => rfl)
  exact ⟨h.2.2.2.2.2.2.2.1, h.2.2.2.2.2.2.2.2.1, h.2.2.2.2.2.2.2.2.2⟩

/-- C9: when create runs for a room that is already registered, the new
handle simply replaces the old one: no call of the whole `add_task` run is
a destroy or a disable (no teardown of the replaced handle), and if the
creation sequence then fails, deregistration leaves the room entirely
absent even though it was registered before the call. -/
theorem C9_replacement_no_teardown (envs : Nat → Env) (s : TaskSettings)
    (m : Manager) (t0 : RecordTask) (hw : m.wf)
    (h0 : m.lookup s.room_id = some t0) :
    (∀ c ∈ (add_task envs s m).2.2,
      c = JobCall.setup s.room_id ∨ c = JobCall.enableMonitor s.room_id ∨
        c = JobCall.enableRecorder s.room_id) ∧
    (∀ e, (add_task envs s m).1 = .error e →
      has_task (add_task envs s m).2.1 s.room_id = false) := by
  constructor
  · intro c hc
    rw [add_task] at hc
    exact loop_trace_shape envs s 64 1 0 m c hc
  · intro e he
    rw [add_task] at he ⊢
    exact loop_error_absent envs s 64 1 0 m e hw he

/-- C9 witness: re-creating room 7, which is already registered, with a
failing `setup()`: the only call made is `setup` (no teardown of the
replaced handle) and the room ends up absent. -/
theorem C9_replacement_no_teardown_witness :
    (add_task (fun _ => failEnvW) sampleSettings mNotReady).2.2
      = [JobCall.setup 7] ∧
    has_task (add_task (fun _ => failEnvW) sampleSettings mNotReady).2.1 7
      = false := by
  have h := C9_replacement_no_teardown (fun _ => failEnvW) sampleSettings
    mNotReady taskNotReady (by simp [Manager.wf, mNotReady]) rfl
  exact ⟨rfl, h.2 (.JobError 0) rfl⟩

/-- C8: `load_all_tasks` over `[A, B, C]` starting from an empty registry,
where only B's creation fails (non-retryably, at `setup()`): A and C end
up registered, B does not, exactly B's error is forwarded to the external
error-reporting sink, `load_all_tasks` itself raises nothing (its result
type is total), and one `setup` call is made per entry in list order. -/
theorem C8_batch_isolation (sA sB sC : TaskSettings) (e : Err)
    (envs : Nat → Nat → Env)
    (hAB : sA.room_id ≠ sB.room_id) (hBC : sB.room_id ≠ sC.room_id)
    (hAC : sA.room_id ≠ sC.room_id)
    (hA : ∀ c, envs 0 1 c = none)
    (hB : envs 1 1 (JobCall.setup sB.room_id) = some e)
    (hBnr : isRetryable e = false)
    (hC : ∀ c, envs 2 1 c = none) :
    has_task (load_all_tasks envs [sA, sB, sC] mEmpty).1 sA.room_id = true ∧
    has_task (load_all_tasks envs [sA, sB, sC] mEmpty).1 sB.room_id = false ∧
    has_task (load_all_tasks envs [sA, sB, sC] mEmpty).1 sC.room_id = true ∧
    (load_all_tasks envs [sA, sB, sC] mEmpty).2.1 = [e] ∧
    (load_all_tasks envs [sA, sB, sC] mEmpty).2.2.filter isSetupCall
      = [JobCall.setup sA.room_id, JobCall.setup sB.room_id,
         JobCall.setup sC.room_id] := by
  have hwfE : mEmpty.wf := by simp [Manager.wf, mEmpty]
  have hA1 : (add_task_attempt (envs 0 1) sA mEmpty).1 = .ok () :=
    attempt_all_ok (envs 0 1) sA mEmpty hA
  have heqA : add_task (envs 0) sA mEmpty
      = add_task_attempt (envs 0 1) sA mEmpty :=
    add_task_of_first_ok (envs 0) sA mEmpty hA1
  have heqB := add_task_setup_fail_nonretry (envs 1) sB
    ((add_task_attempt (envs 0 1) sA mEmpty).2.1) e hB hBnr
  have hC1 : (add_task_attempt (envs 2 1) sC
      (((add_task_attempt (envs 0 1) sA mEmpty).2.1).eraseRoom sB.room_id)).1
      = .ok () :=
    attempt_all_ok _ _ _ hC
  have heqC := add_task_of_first_ok (envs 2) sC
    (((add_task_attempt (envs 0 1) sA mEmpty).2.1).eraseRoom sB.room_id) hC1
  simp only [load_all_tasks, load_all_go, heqA, hA1, heqB, heqC, hC1]
  refine ⟨?_, ?_, ?_, ?_, ?_⟩
  · simp only [has_task, attempt_lookup_ne (envs 2 1) sC _ sA.room_id hAC,
      lookup_erase_ne _ sB.room_id sA.room_id hAB]
    exact attempt_ok_lookup (envs 0 1) sA mEmpty hA1
  · simp only [has_task, attempt_lookup_ne (envs 2 1) sC _ sB.room_id hBC,
      lookup_erase_self _ sB.room_id (attempt_wf (envs 0 1) sA mEmpty hwfE)]
    rfl
  · simp only [has_task]
    exact attempt_ok_lookup (envs 2 1) sC _ hC1
  · trivial
  · simp only [List.append_nil, List.filter_append,
      attempt_ok_filter (envs 0 1) sA mEmpty hA1,
      attempt_ok_filter (envs 2 1) sC _ hC1]
    simp [isSetupCall]

/-- C8 witness: a concrete batch `[room 7, room 8, room 9]` in which only
room 8's creation fails: rooms 7 and 9 end up registered, room 8 does not,
and exactly the one error is reported to the sink. -/
theorem C8_batch_isolation_witness :
    has_task (load_all_tasks batchEnvs
      [sampleSettings, sampleSettings8, sampleSettings9] mEmpty).1 7 = true ∧
    has_task (load_all_tasks batchEnvs
      [sampleSettings, sampleSettings8, sampleSettings9] mEmpty).1 8 = false ∧
    has_task (load_all_tasks batchEnvs
      [sampleSettings, sampleSettings8, sampleSettings9] mEmpty).1 9 = true ∧
    (load_all_tasks batchEnvs
      [sampleSettings, sampleSettings8, sampleSettings9] mEmpty).2.1
      = [Err.JobError 0] := by
  have h := C8_batch_isolation sampleSettings sampleSettings8 sampleSettings9
    (.JobError 0) batchEnvs (by decide) (by decide) (by decide)
    (fun c => rfl) rfl (by decide) (fun c => rfl)
  exact ⟨h.1, h.2.1, h.2.2.1, h.2.2.2.1⟩

end RecordTaskManager

end Blrec
